import Mathlib

/-!
Verification of the LLM-dispatch module in src/aider/sendchat.py.

The Python source is shallowly embedded: each Python function becomes a Lean
definition over explicit state, raised exceptions become the error side of
Except, and the exception classes that the source distinguishes become
constructors of the PyError type.  Remote network calls are an oracle
argument (attempt index to outcome), and instrumentation counters
(remote calls made, fingerprint computations, loop attempts) make the
effect claims statable.
-/

/-- The exception classes that appear in src/aider/sendchat.py: the six
retryable classes of the backoff decorator (lines 38-45), plus the error
classes the rest of the module raises or catches. -/
inductive PyError
  | timeout
  | apiError
  | serviceUnavailable
  | rateLimit
  | apiConnectionError
  | requestsConnectionError
  | invalidRequestError
  | valueError (msg : String)
  | attributeError (attr : String)
  | keyError (key : String)
  | nameError (name : String)
  | apiStatusError (body : String)
  | exceptionErr (msg : String)
deriving DecidableEq, Repr

/-- The exception tuple of the backoff decorator on
OpenAIChatBot.send_with_retries (lines 36-45): Timeout, APIError,
ServiceUnavailableError, RateLimitError, APIConnectionError,
requests.exceptions.ConnectionError. -/
def retryable : PyError → Bool
  | PyError.timeout => true
  | PyError.apiError => true
  | PyError.serviceUnavailable => true
  | PyError.rateLimit => true
  | PyError.apiConnectionError => true
  | PyError.requestsConnectionError => true
  | _ => false

/-- Fuel-indexed worker for Python str.split(sep): scans left to right,
cutting at each non-overlapping occurrence of sep.  The fuel is always at
least the length of the scanned list plus one, so the fuel-exhausted arm
is never reached at the call site below. -/
def splitFuel (sep : List Char) : Nat → List Char → List Char → List (List Char)
  | 0, cs, acc => [acc.reverse ++ cs]
  | _ + 1, [], acc => [acc.reverse]
  | fuel + 1, c :: rest, acc =>
    if List.isPrefixOf sep (c :: rest) then
      acc.reverse :: splitFuel sep fuel (List.drop sep.length (c :: rest)) []
    else
      splitFuel sep fuel rest (c :: acc)

/-- Python str.split(sep) for a non-empty separator: the source only splits
on the separators given as a literal, never an empty one.  Like Python, an empty
input yields the singleton list containing the empty string. -/
def pySplit (s sep : String) : List String :=
  (splitFuel sep.data (s.data.length + 1) s.data []).map String.mk

/-- The members of the RoleOptions Enum of lines 156-159.  Its class body
holds only the annotations USER and ASSISTANT with no assigned values, and
annotations create no Enum members, so the member list is empty. -/
def RoleOptions.memberNames : List String := []

/-- Member access on the RoleOptions Enum: looking up a name on an Enum
resolves it among the members, and with no members every access -
RoleOptions.USER included - raises AttributeError for that name. -/
def RoleOptions.getMember (name : String) : Except PyError Unit :=
  if name ∈ RoleOptions.memberNames then Except.ok ()
  else Except.error (PyError.attributeError name)

/-- Human delimiter token; the source annotates it at line 163 as the
literal string consisting of the word Human, a colon and a blank line. -/
def HUMAN_PROMPT : String := "Human:\n\n"

/-- Assistant delimiter token; annotated at line 164 analogously. -/
def AI_PROMPT : String := "Assistant:\n\n"

/-- The loop of PromptConverter.convert_to_anthropic (lines 169-173) over
the items of the Dict[str, str] argument (embedded as an association list
in insertion order).  For every item, line 170 first evaluates
self.role_options.USER, a member access on the member-less RoleOptions
Enum, so the first item of any non-empty dictionary raises
AttributeError("USER") before any comparison or append; the dispatch on
the role and the delimiter appends of lines 170-173 are never reached. -/
def PromptConverter.convertToAnthropicLoop :
    List (String × String) → String → Except PyError String
  | [], prompt => Except.ok prompt
  | (_role, _content) :: _rest, _prompt =>
    match RoleOptions.getMember "USER" with
    | Except.error e => Except.error e
    | Except.ok _ => Except.error (PyError.exceptionErr "unreachable")

/-- PromptConverter.convert_to_anthropic (lines 167-174): start from the
empty prompt and run the item loop; an empty dictionary skips the loop and
returns the empty prompt. -/
def PromptConverter.convert_to_anthropic
    (message_dict : List (String × String)) : Except PyError String :=
  PromptConverter.convertToAnthropicLoop message_dict ""

/-- The loop body of PromptConverter.convert_to_openai (lines 179-181).
Each segment is split on every colon and unpacked into exactly two names;
a segment that does not produce exactly two parts raises ValueError.  A
segment that does unpack then evaluates self.generate_prompt, an attribute
PromptConverter does not define (its methods are listed at lines 161-182),
so the iteration raises AttributeError before storing anything. -/
def PromptConverter.convertLoop : List String → Except PyError (List (String × String))
  | [] => Except.ok []
  | message :: _rest =>
    match pySplit message ":" with
    | [_role, _content] => Except.error (PyError.attributeError "generate_prompt")
    | _ => Except.error (PyError.valueError "unpack role, content")

/-- PromptConverter.convert_to_openai (lines 176-182): split the transcript
on the blank-line separator and run the segment loop. -/
def PromptConverter.convert_to_openai
    (message_string : String) : Except PyError (List (String × String)) :=
  PromptConverter.convertLoop (pySplit message_string "\n\n")

/-- Escaping used when a string is embedded in the JSON cache key, mirroring
the escapes json.dumps applies to the characters the module can produce. -/
def jsonEscape (s : String) : String :=
  s.foldl
    (fun acc c =>
      if c = '\\' then acc ++ "\\\\"
      else if c = '\"' then acc ++ "\\\""
      else if c = '\n' then acc ++ "\\n"
      else acc.push c)
    ""

/-- A JSON string literal. -/
def dumpJStr (s : String) : String := "\"" ++ jsonEscape s ++ "\""

/-- Order on dictionary items used by json.dumps(..., sort_keys=True): items
are sorted as pairs, the key deciding and the (serialized) value breaking the
tie.  Dictionary keys are unique, so the tiebreak never fires; it only makes
the order linear. -/
def pairLE (a b : String × String) : Prop :=
  a.1 < b.1 ∨ (a.1 = b.1 ∧ a.2 ≤ b.2)

instance : DecidableRel pairLE := fun a b => by
  unfold pairLE
  exact inferInstance

instance : IsTotal (String × String) pairLE := by
  constructor
  intro a b
  rcases lt_trichotomy a.1 b.1 with h | h | h
  · exact Or.inl (Or.inl h)
  · rcases le_total a.2 b.2 with h2 | h2
    · exact Or.inl (Or.inr ⟨h, h2⟩)
    · exact Or.inr (Or.inr ⟨h.symm, h2⟩)
  · exact Or.inr (Or.inl h)

instance : IsTrans (String × String) pairLE := by
  constructor
  intro a b c hab hbc
  rcases hab with h1 | ⟨e1, l1⟩
  · rcases hbc with h2 | ⟨e2, _⟩
    · exact Or.inl (lt_trans h1 h2)
    · exact Or.inl (e2 ▸ h1)
  · rcases hbc with h2 | ⟨e2, l2⟩
    · exact Or.inl (e1 ▸ h2)
    · exact Or.inr ⟨e1.trans e2, le_trans l1 l2⟩

instance : IsAntisymm (String × String) pairLE := by
  constructor
  intro a b hab hba
  rcases hab with h1 | ⟨e1, l1⟩
  · rcases hba with h2 | ⟨e2, _⟩
    · exact absurd h2 (lt_asymm h1)
    · exact absurd (e2 ▸ h1) (lt_irrefl _)
  · rcases hba with h2 | ⟨e2, l2⟩
    · exact absurd (e1 ▸ h2) (lt_irrefl _)
    · exact Prod.ext e1 (le_antisymm l1 l2)

/-- Sorting step of json.dumps(..., sort_keys=True) on one object whose
values are already serialized. -/
def sortPairs (l : List (String × String)) : List (String × String) :=
  List.insertionSort pairLE l

/-- Serialize one JSON object from its (key, serialized value) items with
sorted keys, json.dumps default separators. -/
def dumpObj (entries : List (String × String)) : String :=
  "\x7b" ++ String.intercalate ", "
    ((sortPairs entries).map (fun kv => dumpJStr kv.1 ++ ": " ++ kv.2)) ++ "\x7d"

/-- Serialize one message dictionary (string keys and values) as
json.dumps does, keys sorted. -/
def messageDictDump (d : List (String × String)) : String :=
  dumpObj (d.map (fun kv => (kv.1, dumpJStr kv.2)))

/-- Serialize the messages (or functions) list: a JSON array of objects. -/
def dumpMessages (msgs : List (List (String × String))) : String :=
  "[" ++ String.intercalate ", " (msgs.map messageDictDump) ++ "]"

/-- The caller-visible request of OpenAIChatBot.send_with_retries (line 51):
model name, messages (a list of dictionaries embedded as association lists
in insertion order), optional functions, and the stream flag.  The
temperature entry is the constant 0 added at line 55. -/
structure Request where
  model : String
  messages : List (List (String × String))
  functions : Option (List (List (String × String)))
  stream : Bool
deriving DecidableEq, Repr

/-- The two optional module attributes consulted at lines 61-64:
openai.api_deployment_id and openai.api_engine. -/
structure OpenAIGlobals where
  api_deployment_id : Option String
  api_engine : Option String
deriving DecidableEq, Repr

/-- The kwargs dictionary built at lines 52-64, with each value already
serialized: model, messages, temperature=0, stream, then functions,
deployment_id and engine when present. -/
def kwargsEntries (g : OpenAIGlobals) (r : Request) : List (String × String) :=
  [("model", dumpJStr r.model),
   ("messages", dumpMessages r.messages),
   ("temperature", "0"),
   ("stream", if r.stream then "true" else "false")]
  ++ (match r.functions with
      | some fs => [("functions", dumpMessages fs)]
      | none => [])
  ++ (match g.api_deployment_id with
      | some d => [("deployment_id", dumpJStr d)]
      | none => [])
  ++ (match g.api_engine with
      | some e => [("engine", dumpJStr e)]
      | none => [])

/-- Line 66: key = json.dumps(kwargs, sort_keys=True).encode(). -/
def requestKey (g : OpenAIGlobals) (r : Request) : String :=
  dumpObj (kwargsEntries g r)

/-- Stand-in for hashlib.sha1 (line 67): a fixed deterministic digest of the
key bytes, reduced modulo 2 to the 160 like a real 160-bit sha1 digest.  The
claims depend only on the digest being a function of the key, not on its
value, so the compression function is a simple byte fold. -/
def sha1 (s : String) : Nat :=
  s.foldl (fun h c => (h * 31 + c.toNat) % (2 ^ 160)) 5381

/-- The fingerprint of a request: the digest of its canonical serialization. -/
def requestFingerprint (g : OpenAIGlobals) (r : Request) : Nat :=
  sha1 (requestKey g r)

/-- The process-wide CACHE of line 20: None means caching disabled,
otherwise a dictionary from serialized keys to responses, embedded as an
association list with unique keys. -/
def CacheState (α : Type) : Type := Option (List (String × α))

/-- Dictionary lookup. -/
def dictGet {α : Type} : List (String × α) → String → Option α
  | [], _ => none
  | (k, v) :: rest, key => if k = key then some v else dictGet rest key

/-- Dictionary store: replace the binding of the key when present,
otherwise append it. -/
def dictPut {α : Type} : List (String × α) → String → α → List (String × α)
  | [], key, v => [(key, v)]
  | (k, w) :: rest, key, v =>
    if k = key then (k, v) :: rest else (k, w) :: dictPut rest key v

/-- key in CACHE (line 69): always a miss when caching is disabled. -/
def cacheGet {α : Type} (cache : CacheState α) (key : String) : Option α :=
  match cache with
  | none => none
  | some entries => dictGet entries key

/-- CACHE[key] = res (line 75): a no-op when caching is disabled. -/
def cachePut {α : Type} (cache : CacheState α) (key : String) (v : α) : CacheState α :=
  match cache with
  | none => none
  | some entries => some (dictPut entries key v)

/-- Outcome of one execution of the body of
OpenAIChatBot.send_with_retries (lines 51-77), together with the number of
remote calls it made and the number of fingerprint computations it ran. -/
structure AttemptOut (α : Type) where
  result : Except PyError (Nat × α)
  cache : CacheState α
  remoteCalls : Nat
  fingerprints : Nat

/-- One execution of the decorated body (lines 51-77).  The key and its
sha1 fingerprint are computed unconditionally (lines 66-67).  Line 69
returns the cached response for a non-streaming request on a hit; line 72
is the remote call, whose outcome for this attempt is the remoteResult
argument; lines 74-75 store a non-streaming response when caching is
enabled. -/
def OpenAIChatBot.sendAttempt {α : Type} (g : OpenAIGlobals) (req : Request)
    (remoteResult : Except PyError α) (cache : CacheState α) : AttemptOut α :=
  let key := requestKey g req
  let fp := sha1 key
  match req.stream, cacheGet cache key with
  | false, some v => ⟨Except.ok (fp, v), cache, 0, 1⟩
  | _, _ =>
    match remoteResult with
    | Except.error e => ⟨Except.error e, cache, 1, 1⟩
    | Except.ok res =>
      if req.stream = false then
        ⟨Except.ok (fp, res), cachePut cache key res, 1, 1⟩
      else
        ⟨Except.ok (fp, res), cache, 1, 1⟩

/-- Aggregate outcome of the retry loop around the body. -/
structure RunOut (α : Type) where
  result : Except PyError (Nat × α)
  cache : CacheState α
  remoteCalls : Nat
  fingerprints : Nat
  attempts : Nat

/-- The control flow of the backoff.on_exception decorator (lines 36-50):
run the body; on success stop; on a retryable exception retry while tries
remain, otherwise re-raise.  The remote oracle is indexed by the attempt
number; the backoff sleep is timing only and has no effect on the
result. -/
def OpenAIChatBot.sendLoop {α : Type} (g : OpenAIGlobals) (req : Request)
    (remote : Nat → Except PyError α) :
    CacheState α → Nat → Nat → RunOut α
  | cache, _, 0 => ⟨Except.error (PyError.exceptionErr "backoff: no tries"), cache, 0, 0, 0⟩
  | cache, i, rem + 1 =>
    let a := OpenAIChatBot.sendAttempt g req (remote i) cache
    match a.result with
    | Except.ok v => ⟨Except.ok v, a.cache, a.remoteCalls, a.fingerprints, 1⟩
    | Except.error e =>
      if retryable e = true ∧ rem ≠ 0 then
        let rest := OpenAIChatBot.sendLoop g req remote a.cache (i + 1) rem
        ⟨rest.result, rest.cache, a.remoteCalls + rest.remoteCalls,
          a.fingerprints + rest.fingerprints, 1 + rest.attempts⟩
      else
        ⟨Except.error e, a.cache, a.remoteCalls, a.fingerprints, 1⟩

/-- OpenAIChatBot.send_with_retries (lines 36-77): the body wrapped in the
backoff decorator with max_tries=10. -/
def OpenAIChatBot.send_with_retries {α : Type} (g : OpenAIGlobals) (req : Request)
    (remote : Nat → Except PyError α) (cache : CacheState α) : RunOut α :=
  OpenAIChatBot.sendLoop g req remote cache 0 10

/-- The exception classes caught by OpenAIChatBot.simple_send_with_retries
(line 88): AttributeError and openai.error.InvalidRequestError. -/
def simpleCaught : PyError → Bool
  | PyError.attributeError _ => true
  | PyError.invalidRequestError => true
  | _ => false

/-- OpenAIChatBot.simple_send_with_retries (lines 79-89): call
send_with_retries with functions=None and stream=False, then extract
response.choices[0].message.content (the extract oracle); a caught
exception from either step yields None, any other exception propagates. -/
def OpenAIChatBot.simple_send_with_retries {α : Type} (g : OpenAIGlobals)
    (model : String) (messages : List (List (String × String)))
    (remote : Nat → Except PyError α) (cache : CacheState α)
    (extract : α → Except PyError String) :
    Except PyError (Option String) × CacheState α :=
  let out := OpenAIChatBot.send_with_retries g (Request.mk model messages none false) remote cache
  match out.result with
  | Except.error e =>
    if simpleCaught e then (Except.ok none, out.cache) else (Except.error e, out.cache)
  | Except.ok hr =>
    match extract hr.2 with
    | Except.ok s => (Except.ok (some s), out.cache)
    | Except.error e =>
      if simpleCaught e then (Except.ok none, out.cache) else (Except.error e, out.cache)

/-- Python str.startswith. -/
def pyStartsWith (s pre : String) : Bool :=
  List.isPrefixOf pre.data s.data

/-- AnthropicChatBot.async_stream (lines 122-154), returning the outcome and
the number of remote calls performed.  With model None, is_claude calls
model.startswith and gets AttributeError (lines 104-105, 130).  For a claude
model, an empty prompt raises ValueError (lines 134-135, not caught: the
except clause at line 149 handles only APIStatusError); otherwise line 136
reads self.prompt_converter, an attribute that does not exist (the
constructor at line 96 names it self.converter), raising AttributeError
before the remote call at line 139.  For a non-claude model the body is
skipped and line 154 returns the unbound local response, an
UnboundLocalError, a NameError.  No path reaches the remote endpoint. -/
def AnthropicChatBot.async_stream (prompt : String) (model : Option String) :
    Except PyError String × Nat :=
  match model with
  | none => (Except.error (PyError.attributeError "startswith"), 0)
  | some m =>
    if pyStartsWith m "claude" then
      if prompt = "" then
        (Except.error (PyError.valueError "Prompt cannot be empty"), 0)
      else
        (Except.error (PyError.attributeError "prompt_converter"), 0)
    else
      (Except.error (PyError.nameError "response"), 0)

/-- The process environment restricted to the two credential variables the
module reads (lines 23-24). -/
structure Env where
  OPENAI_API_KEY : Option String
  ANTHROPIC_API_KEY : Option String
deriving DecidableEq, Repr

/-- check_api_keys (lines 22-30).  Line 23 reads OPENAI_API_KEY with
os.getenv (never raising, and in fact unused: both fall-through branches
return False).  Line 24 reads ANTHROPIC_API_KEY with os.environ[...], which
raises KeyError when the variable is absent.  Line 25 tests Python
truthiness, so a present-but-empty value falls through to the
False-returning branches (lines 27-30). -/
def check_api_keys (env : Env) : Except PyError (Option String) :=
  match env.ANTHROPIC_API_KEY with
  | none => Except.error (PyError.keyError "ANTHROPIC_API_KEY")
  | some a =>
    if a ≠ "" then Except.ok (some a)
    else Except.ok none

/-- Which provider the dispatchers construct (lines 212-215 and 220-223). -/
inductive Provider
  | anthropic (api_key : String)
  | openai
deriving DecidableEq, Repr

/-- Provider construction step common to both top-level dispatchers:
AnthropicChatBot when check_api_keys returned a truthy key, OpenAIChatBot
otherwise; an exception from the check propagates. -/
def selectProvider (env : Env) : Except PyError Provider :=
  match check_api_keys env with
  | Except.error e => Except.error e
  | Except.ok (some k) => Except.ok (Provider.anthropic k)
  | Except.ok none => Except.ok Provider.openai

/-- Python attribute lookup against a class method table: AttributeError
when the name is not among the class's methods. -/
def pyGetMethod (methods : List String) (name : String) : Except PyError Unit :=
  if name ∈ methods then Except.ok () else Except.error (PyError.attributeError name)

/-- The methods the AnthropicChatBot class body defines (lines 91-154). -/
def AnthropicChatBot.methodNames : List String :=
  ["create", "is_claude", "generate_prompt", "async_stream"]

/-- Top-level send_with_retries (lines 210-216): run check_api_keys, build
the Anthropic bot on a truthy key and the OpenAI bot otherwise, then invoke
bot.send_with_retries.  On the Anthropic bot that attribute lookup fails,
so the ok-branch of the lookup is unreachable. -/
def send_with_retries {α : Type} (env : Env) (g : OpenAIGlobals) (req : Request)
    (remote : Nat → Except PyError α) (cache : CacheState α) : RunOut α :=
  match check_api_keys env with
  | Except.error e => ⟨Except.error e, cache, 0, 0, 0⟩
  | Except.ok (some _k) =>
    match pyGetMethod AnthropicChatBot.methodNames "send_with_retries" with
    | Except.error e => ⟨Except.error e, cache, 0, 0, 0⟩
    | Except.ok _ => ⟨Except.error (PyError.exceptionErr "unreachable"), cache, 0, 0, 0⟩
  | Except.ok none => OpenAIChatBot.send_with_retries g req remote cache

/-- Top-level simple_send_with_retries (lines 218-224), analogous. -/
def simple_send_with_retries {α : Type} (env : Env) (g : OpenAIGlobals)
    (model : String) (messages : List (List (String × String)))
    (remote : Nat → Except PyError α) (cache : CacheState α)
    (extract : α → Except PyError String) :
    Except PyError (Option String) × CacheState α :=
  match check_api_keys env with
  | Except.error e => (Except.error e, cache)
  | Except.ok (some _k) =>
    match pyGetMethod AnthropicChatBot.methodNames "simple_send_with_retries" with
    | Except.error e => (Except.error e, cache)
    | Except.ok _ => (Except.error (PyError.exceptionErr "unreachable"), cache)
  | Except.ok none =>
    OpenAIChatBot.simple_send_with_retries g model messages remote cache extract

deriving instance DecidableEq for Except

/-- Two message lists that agree up to the key-insertion order inside each
message dictionary. -/
def MsgsEquiv (m₁ m₂ : List (List (String × String))) : Prop :=
  List.Forall₂ List.Perm m₁ m₂

/-- Optional function lists that agree up to key-insertion order. -/
def FunsEquiv : Option (List (List (String × String)))
    → Option (List (List (String × String))) → Prop
  | none, none => True
  | some a, some b => MsgsEquiv a b
  | _, _ => False

/-- Structural equality of two requests up to key-insertion-order
permutations inside the caller-supplied dictionaries: same model, same
messages and functions up to reordering each dictionary's items, same
stream flag. -/
def ReqEquiv (r₁ r₂ : Request) : Prop :=
  r₁.model = r₂.model ∧ MsgsEquiv r₁.messages r₂.messages ∧
  FunsEquiv r₁.functions r₂.functions ∧ r₁.stream = r₂.stream

lemma sendAttempt_fail_of_miss {α : Type} (g : OpenAIGlobals) (req : Request)
    (e : PyError) (cache : CacheState α)
    (hs : req.stream = false) (hm : cacheGet cache (requestKey g req) = none) :
    OpenAIChatBot.sendAttempt g req (Except.error e) cache
      = ⟨Except.error e, cache, 1, 1⟩ := by
  simp [OpenAIChatBot.sendAttempt, hs, hm]

lemma sendAttempt_hit {α : Type} (g : OpenAIGlobals) (req : Request)
    (r : Except PyError α) (cache : CacheState α) (v : α)
    (hs : req.stream = false) (hm : cacheGet cache (requestKey g req) = some v) :
    OpenAIChatBot.sendAttempt g req r cache
      = ⟨Except.ok (requestFingerprint g req, v), cache, 0, 1⟩ := by
  simp [OpenAIChatBot.sendAttempt, requestFingerprint, hs, hm]

lemma sendAttempt_ok_of_miss {α : Type} (g : OpenAIGlobals) (req : Request)
    (res : α) (cache : CacheState α)
    (hs : req.stream = false) (hm : cacheGet cache (requestKey g req) = none) :
    OpenAIChatBot.sendAttempt g req (Except.ok res) cache
      = ⟨Except.ok (requestFingerprint g req, res), cachePut cache (requestKey g req) res, 1, 1⟩ := by
  simp [OpenAIChatBot.sendAttempt, requestFingerprint, hs, hm]

lemma sendAttempt_stream {α : Type} (g : OpenAIGlobals) (req : Request)
    (r : Except PyError α) (cache : CacheState α) (hs : req.stream = true) :
    (OpenAIChatBot.sendAttempt g req r cache).cache = cache ∧
    (OpenAIChatBot.sendAttempt g req r cache).fingerprints = 1 := by
  cases r <;> simp [OpenAIChatBot.sendAttempt, hs]

lemma sendLoop_succ {α : Type} (g : OpenAIGlobals) (req : Request)
    (remote : Nat → Except PyError α) (cache : CacheState α) (i rem : Nat) :
    OpenAIChatBot.sendLoop g req remote cache i (rem + 1)
      = (let a := OpenAIChatBot.sendAttempt g req (remote i) cache
         match a.result with
         | Except.ok v => ⟨Except.ok v, a.cache, a.remoteCalls, a.fingerprints, 1⟩
         | Except.error e =>
           if retryable e = true ∧ rem ≠ 0 then
             let rest := OpenAIChatBot.sendLoop g req remote a.cache (i + 1) rem
             ⟨rest.result, rest.cache, a.remoteCalls + rest.remoteCalls,
               a.fingerprints + rest.fingerprints, 1 + rest.attempts⟩
           else
             ⟨Except.error e, a.cache, a.remoteCalls, a.fingerprints, 1⟩) := rfl

lemma sendLoop_all_fail {α : Type} (g : OpenAIGlobals) (req : Request)
    (remote : Nat → Except PyError α) (errs : Nat → PyError) (cache : CacheState α)
    (hs : req.stream = false) (hm : cacheGet cache (requestKey g req) = none)
    (hr : ∀ j, remote j = Except.error (errs j))
    (hre : ∀ j, retryable (errs j) = true) :
    ∀ rem i, OpenAIChatBot.sendLoop g req remote cache i (rem + 1)
      = ⟨Except.error (errs (i + rem)), cache, rem + 1, rem + 1, rem + 1⟩ := by
  intro rem
  induction rem with
  | zero =>
    intro i
    rw [sendLoop_succ]
    simp [hr i, hre i, sendAttempt_fail_of_miss g req (errs i) cache hs hm]
  | succ n ih =>
    intro i
    have step := ih (i + 1)
    have hidx : i + 1 + n = i + (n + 1) := by omega
    have harith : 1 + (n + 1) = n + 1 + 1 := by omega
    rw [hidx] at step
    rw [sendLoop_succ]
    simp [hr i, hre i, sendAttempt_fail_of_miss g req (errs i) cache hs hm,
      step, harith]

lemma sendLoop_first_ok {α : Type} (g : OpenAIGlobals) (req : Request)
    (remote : Nat → Except PyError α) (cache c2 : CacheState α) (i rem : Nat)
    (v : Nat × α) (rc fp : Nat)
    (h0 : OpenAIChatBot.sendAttempt g req (remote i) cache = ⟨Except.ok v, c2, rc, fp⟩) :
    OpenAIChatBot.sendLoop g req remote cache i (rem + 1) = ⟨Except.ok v, c2, rc, fp, 1⟩ := by
  rw [sendLoop_succ]
  simp [h0]

lemma sendLoop_first_fatal {α : Type} (g : OpenAIGlobals) (req : Request)
    (remote : Nat → Except PyError α) (cache c2 : CacheState α) (i rem : Nat)
    (e : PyError) (rc fp : Nat)
    (h0 : OpenAIChatBot.sendAttempt g req (remote i) cache = ⟨Except.error e, c2, rc, fp⟩)
    (hnr : retryable e = false) :
    OpenAIChatBot.sendLoop g req remote cache i (rem + 1) = ⟨Except.error e, c2, rc, fp, 1⟩ := by
  rw [sendLoop_succ]
  simp [h0, hnr]

lemma sendLoop_stream {α : Type} (g : OpenAIGlobals) (req : Request)
    (remote : Nat → Except PyError α) (hs : req.stream = true) :
    ∀ rem cache i,
      (OpenAIChatBot.sendLoop g req remote cache i rem).cache = cache ∧
      (OpenAIChatBot.sendLoop g req remote cache i rem).fingerprints
        = (OpenAIChatBot.sendLoop g req remote cache i rem).attempts ∧
      (1 ≤ rem → 1 ≤ (OpenAIChatBot.sendLoop g req remote cache i rem).attempts) := by
  intro rem
  induction rem with
  | zero =>
    intro cache i
    simp [OpenAIChatBot.sendLoop]
  | succ n ih =>
    intro cache i
    have hca := (sendAttempt_stream g req (remote i) cache hs).1
    have hfp := (sendAttempt_stream g req (remote i) cache hs).2
    rw [sendLoop_succ]
    cases hres : (OpenAIChatBot.sendAttempt g req (remote i) cache).result with
    | ok v => simp [hres, hca, hfp]
    | error e =>
      by_cases hcond : retryable e = true ∧ n ≠ 0
      · have hrest := ih (OpenAIChatBot.sendAttempt g req (remote i) cache).cache (i + 1)
        rw [hca] at hrest
        simp [hres, hcond, hca, hfp, hrest.1, hrest.2.1]
      · simp [hres, hcond, hca, hfp]

lemma sortPairs_eq_of_perm {l₁ l₂ : List (String × String)} (h : l₁.Perm l₂) :
    sortPairs l₁ = sortPairs l₂ :=
  List.eq_of_perm_of_sorted
    ((List.perm_insertionSort pairLE l₁).trans
      (h.trans (List.perm_insertionSort pairLE l₂).symm))
    (List.sorted_insertionSort pairLE l₁)
    (List.sorted_insertionSort pairLE l₂)

lemma dumpObj_perm {l₁ l₂ : List (String × String)} (h : l₁.Perm l₂) :
    dumpObj l₁ = dumpObj l₂ := by
  unfold dumpObj
  rw [sortPairs_eq_of_perm h]

lemma messageDictDump_perm {d₁ d₂ : List (String × String)} (h : d₁.Perm d₂) :
    messageDictDump d₁ = messageDictDump d₂ :=
  dumpObj_perm (h.map _)

lemma map_messageDictDump_eq {m₁ m₂ : List (List (String × String))}
    (h : MsgsEquiv m₁ m₂) :
    m₁.map messageDictDump = m₂.map messageDictDump := by
  induction h with
  | nil => rfl
  | cons hp _ ih => simp [messageDictDump_perm hp, ih]

lemma dumpMessages_equiv {m₁ m₂ : List (List (String × String))}
    (h : MsgsEquiv m₁ m₂) : dumpMessages m₁ = dumpMessages m₂ := by
  unfold dumpMessages
  rw [map_messageDictDump_eq h]

lemma requestKey_equiv (g : OpenAIGlobals) {r₁ r₂ : Request} (h : ReqEquiv r₁ r₂) :
    requestKey g r₁ = requestKey g r₂ := by
  obtain ⟨mo₁, ms₁, fn₁, st₁⟩ := r₁
  obtain ⟨mo₂, ms₂, fn₂, st₂⟩ := r₂
  obtain ⟨hm, hmsg, hfun, hstr⟩ := h
  simp only at hm hmsg hfun hstr
  subst hm
  subst hstr
  have hdm := dumpMessages_equiv hmsg
  cases fn₁ with
  | none =>
    cases fn₂ with
    | none => simp [requestKey, kwargsEntries, hdm]
    | some b => simp [FunsEquiv] at hfun
  | some a =>
    cases fn₂ with
    | none => simp [FunsEquiv] at hfun
    | some b =>
      simp only [FunsEquiv] at hfun
      simp [requestKey, kwargsEntries, hdm, dumpMessages_equiv hfun]

/-- Claim C1: converting a USER/ASSISTANT-only Conversation with
convert_to_anthropic and back with convert_to_openai is claimed to be the
identity.  On the code the round trip fails at its first step: the
RoleOptions Enum has no members (its body is annotation-only), so line
170's self.role_options.USER raises AttributeError("USER") on the first
item of every non-empty message dictionary and no transcript is ever
produced - only the empty dictionary converts, to the empty transcript.
The backward direction is broken independently: even on the transcript the
spec's scenario expects, convert_to_openai raises AttributeError because
it calls the undefined generate_prompt.  The theorem evaluates the forward
conversion on every non-empty conversation and at the empty one, and the
backward conversion at the scenario transcript. -/
theorem C1_round_trip_fails :
    (∀ (item : String × String) (rest : List (String × String)),
      PromptConverter.convert_to_anthropic (item :: rest)
        = Except.error (PyError.attributeError "USER")) ∧
    PromptConverter.convert_to_anthropic [] = Except.ok "" ∧
    PromptConverter.convert_to_openai "Human:\n\nhi"
      = Except.error (PyError.attributeError "generate_prompt") :=
  ⟨fun _ _ => rfl, rfl, rfl⟩

/-- Claim C2: a non-streaming request whose remote call always raises a
retryable error is attempted exactly 10 times by
OpenAIChatBot.send_with_retries and the last error propagates; a
non-retryable first error propagates immediately after a single attempt. -/
theorem C2_retry_exhaustion {α : Type} :
    (∀ (g : OpenAIGlobals) (req : Request) (remote : Nat → Except PyError α)
        (cache : CacheState α) (errs : Nat → PyError),
      req.stream = false →
      cacheGet cache (requestKey g req) = none →
      (∀ j, remote j = Except.error (errs j)) →
      (∀ j, retryable (errs j) = true) →
      (OpenAIChatBot.send_with_retries g req remote cache).attempts = 10 ∧
      (OpenAIChatBot.send_with_retries g req remote cache).remoteCalls = 10 ∧
      (OpenAIChatBot.send_with_retries g req remote cache).result
          = Except.error (errs 9)) ∧
    (∀ (g : OpenAIGlobals) (req : Request) (remote : Nat → Except PyError α)
        (cache : CacheState α) (e : PyError),
      req.stream = false →
      cacheGet cache (requestKey g req) = none →
      remote 0 = Except.error e →
      retryable e = false →
      (OpenAIChatBot.send_with_retries g req remote cache).attempts = 1 ∧
      (OpenAIChatBot.send_with_retries g req remote cache).remoteCalls = 1 ∧
      (OpenAIChatBot.send_with_retries g req remote cache).result = Except.error e) := by
  constructor
  · intro g req remote cache errs hs hm hr hre
    have h10 : (10 : Nat) = 9 + 1 := by norm_num
    unfold OpenAIChatBot.send_with_retries
    rw [h10, sendLoop_all_fail g req remote errs cache hs hm hr hre 9 0]
    norm_num
  · intro g req remote cache e hs hm hr0 hnr
    have h0 : OpenAIChatBot.sendAttempt g req (remote 0) cache
        = ⟨Except.error e, cache, 1, 1⟩ := by
      rw [hr0]
      exact sendAttempt_fail_of_miss g req e cache hs hm
    have h10 : (10 : Nat) = 9 + 1 := by norm_num
    unfold OpenAIChatBot.send_with_retries
    rw [h10, sendLoop_first_fatal g req remote cache cache 0 9 e 1 1 h0 hnr]
    exact ⟨rfl, rfl, rfl⟩

/-- Witness for C2 at a concrete request: a remote call that always raises
RateLimitError is attempted 10 times and the rate-limit error propagates; a
remote call that raises InvalidRequestError propagates after one attempt. -/
theorem C2_retry_exhaustion_witness :
    ((OpenAIChatBot.send_with_retries ⟨none, none⟩ ⟨"gpt-4", [], none, false⟩
        (fun _ => Except.error PyError.rateLimit) (none : CacheState Nat)).attempts = 10 ∧
      (OpenAIChatBot.send_with_retries ⟨none, none⟩ ⟨"gpt-4", [], none, false⟩
        (fun _ => Except.error PyError.rateLimit) (none : CacheState Nat)).remoteCalls = 10 ∧
      (OpenAIChatBot.send_with_retries ⟨none, none⟩ ⟨"gpt-4", [], none, false⟩
        (fun _ => Except.error PyError.rateLimit) (none : CacheState Nat)).result
          = Except.error PyError.rateLimit) ∧
    ((OpenAIChatBot.send_with_retries ⟨none, none⟩ ⟨"gpt-4", [], none, false⟩
        (fun _ => Except.error PyError.invalidRequestError) (none : CacheState Nat)).attempts = 1 ∧
      (OpenAIChatBot.send_with_retries ⟨none, none⟩ ⟨"gpt-4", [], none, false⟩
        (fun _ => Except.error PyError.invalidRequestError) (none : CacheState Nat)).remoteCalls = 1 ∧
      (OpenAIChatBot.send_with_retries ⟨none, none⟩ ⟨"gpt-4", [], none, false⟩
        (fun _ => Except.error PyError.invalidRequestError) (none : CacheState Nat)).result
          = Except.error PyError.invalidRequestError) :=
  ⟨C2_retry_exhaustion.1 ⟨none, none⟩ ⟨"gpt-4", [], none, false⟩
      (fun _ => Except.error PyError.rateLimit) none (fun _ => PyError.rateLimit)
      rfl rfl (fun _ => rfl) (fun _ => rfl),
    C2_retry_exhaustion.2 ⟨none, none⟩ ⟨"gpt-4", [], none, false⟩
      (fun _ => Except.error PyError.invalidRequestError) none PyError.invalidRequestError
      rfl rfl rfl rfl⟩

/-- Claim C3 counterexample: with both credential variables present in the
environment but the Anthropic one set to the empty string (present,
falsy), the dispatchers construct the OpenAI batch provider, not the
streaming provider: selection follows Python truthiness, not presence. -/
theorem C3_priority_counterexample :
    (Env.mk (some "sk-openai-test") (some "")).OPENAI_API_KEY.isSome = true ∧
    (Env.mk (some "sk-openai-test") (some "")).ANTHROPIC_API_KEY.isSome = true ∧
    selectProvider (Env.mk (some "sk-openai-test") (some ""))
      = Except.ok Provider.openai :=
  ⟨rfl, rfl, rfl⟩

/-- Claim C3 as amended: whenever the environment holds a non-empty
Anthropic credential, the dispatchers select the streaming provider,
regardless of the requested model name and of the batch credential. -/
theorem C3_priority_amended :
    ∀ (env : Env) (k : String), env.ANTHROPIC_API_KEY = some k → k ≠ "" →
      selectProvider env = Except.ok (Provider.anthropic k) := by
  intro env k hk hne
  simp [selectProvider, check_api_keys, hk, hne]

/-- Witness for the amended C3 at a concrete environment holding both
credentials with non-empty values. -/
theorem C3_priority_amended_witness :
    selectProvider (Env.mk (some "sk-openai-test") (some "sk-ant-test"))
      = Except.ok (Provider.anthropic "sk-ant-test") :=
  C3_priority_amended (Env.mk (some "sk-openai-test") (some "sk-ant-test"))
    "sk-ant-test" rfl (by decide)

/-- Claim C4: the claim says that with the streaming credential absent and
the batch credential present the credential check completes and the batch
provider is selected.  The code instead reads ANTHROPIC_API_KEY with
os.environ[...], which raises KeyError, so no provider is ever selected:
the theorem evaluates the check and the selection at such an
environment. -/
theorem C4_keyerror_on_absent_streaming_credential :
    check_api_keys (Env.mk (some "sk-openai-test") none)
      = Except.error (PyError.keyError "ANTHROPIC_API_KEY") ∧
    selectProvider (Env.mk (some "sk-openai-test") none)
      = Except.error (PyError.keyError "ANTHROPIC_API_KEY") :=
  ⟨rfl, rfl⟩

/-- Claim C5: a non-streaming request whose key is in an enabled cache is
answered from the cache with no remote call and the cache unchanged; on a
miss the remote call runs once, the response is stored under the key and
returned. -/
theorem C5_cache_short_circuit {α : Type} :
    (∀ (g : OpenAIGlobals) (req : Request) (remote : Nat → Except PyError α)
        (cache : CacheState α) (v : α),
      req.stream = false →
      cacheGet cache (requestKey g req) = some v →
      (OpenAIChatBot.send_with_retries g req remote cache).result
          = Except.ok (requestFingerprint g req, v) ∧
      (OpenAIChatBot.send_with_retries g req remote cache).remoteCalls = 0 ∧
      (OpenAIChatBot.send_with_retries g req remote cache).cache = cache) ∧
    (∀ (g : OpenAIGlobals) (req : Request) (remote : Nat → Except PyError α)
        (cache : CacheState α) (res : α),
      req.stream = false →
      cacheGet cache (requestKey g req) = none →
      remote 0 = Except.ok res →
      (OpenAIChatBot.send_with_retries g req remote cache).result
          = Except.ok (requestFingerprint g req, res) ∧
      (OpenAIChatBot.send_with_retries g req remote cache).remoteCalls = 1 ∧
      (OpenAIChatBot.send_with_retries g req remote cache).cache
          = cachePut cache (requestKey g req) res) := by
  constructor
  · intro g req remote cache v hs hm
    have h0 := sendAttempt_hit g req (remote 0) cache v hs hm
    have h10 : (10 : Nat) = 9 + 1 := by norm_num
    unfold OpenAIChatBot.send_with_retries
    rw [h10, sendLoop_first_ok g req remote cache cache 0 9 _ 0 1 h0]
    exact ⟨rfl, rfl, rfl⟩
  · intro g req remote cache res hs hm hr0
    have h0 : OpenAIChatBot.sendAttempt g req (remote 0) cache
        = ⟨Except.ok (requestFingerprint g req, res),
            cachePut cache (requestKey g req) res, 1, 1⟩ := by
      rw [hr0]
      exact sendAttempt_ok_of_miss g req res cache hs hm
    have h10 : (10 : Nat) = 9 + 1 := by norm_num
    unfold OpenAIChatBot.send_with_retries
    rw [h10, sendLoop_first_ok g req remote cache
      (cachePut cache (requestKey g req) res) 0 9 _ 1 1 h0]
    exact ⟨rfl, rfl, rfl⟩

/-- Witness for C5: a concrete request whose key was stored in the cache is
answered from the cache without a remote call; the same request against an
enabled empty cache performs one remote call and stores the response. -/
theorem C5_cache_short_circuit_witness :
    ((OpenAIChatBot.send_with_retries ⟨none, none⟩
        ⟨"gpt-4", [[("role", "user"), ("content", "hi")]], none, false⟩
        (fun _ => Except.ok "remote-resp")
        (some [(requestKey ⟨none, none⟩
          ⟨"gpt-4", [[("role", "user"), ("content", "hi")]], none, false⟩, "cached-resp")])).result
      = Except.ok (requestFingerprint ⟨none, none⟩
          ⟨"gpt-4", [[("role", "user"), ("content", "hi")]], none, false⟩, "cached-resp") ∧
      (OpenAIChatBot.send_with_retries ⟨none, none⟩
        ⟨"gpt-4", [[("role", "user"), ("content", "hi")]], none, false⟩
        (fun _ => Except.ok "remote-resp")
        (some [(requestKey ⟨none, none⟩
          ⟨"gpt-4", [[("role", "user"), ("content", "hi")]], none, false⟩, "cached-resp")])).remoteCalls = 0 ∧
      (OpenAIChatBot.send_with_retries ⟨none, none⟩
        ⟨"gpt-4", [[("role", "user"), ("content", "hi")]], none, false⟩
        (fun _ => Except.ok "remote-resp")
        (some [(requestKey ⟨none, none⟩
          ⟨"gpt-4", [[("role", "user"), ("content", "hi")]], none, false⟩, "cached-resp")])).cache
      = some [(requestKey ⟨none, none⟩
          ⟨"gpt-4", [[("role", "user"), ("content", "hi")]], none, false⟩, "cached-resp")]) ∧
    ((OpenAIChatBot.send_with_retries ⟨none, none⟩
        ⟨"gpt-4", [[("role", "user"), ("content", "hi")]], none, false⟩
        (fun _ => Except.ok "remote-resp") (some [])).result
      = Except.ok (requestFingerprint ⟨none, none⟩
          ⟨"gpt-4", [[("role", "user"), ("content", "hi")]], none, false⟩, "remote-resp") ∧
      (OpenAIChatBot.send_with_retries ⟨none, none⟩
        ⟨"gpt-4", [[("role", "user"), ("content", "hi")]], none, false⟩
        (fun _ => Except.ok "remote-resp") (some [])).remoteCalls = 1 ∧
      (OpenAIChatBot.send_with_retries ⟨none, none⟩
        ⟨"gpt-4", [[("role", "user"), ("content", "hi")]], none, false⟩
        (fun _ => Except.ok "remote-resp") (some [])).cache
      = cachePut (some [])
          (requestKey ⟨none, none⟩
            ⟨"gpt-4", [[("role", "user"), ("content", "hi")]], none, false⟩) "remote-resp") :=
  ⟨C5_cache_short_circuit.1 ⟨none, none⟩
      ⟨"gpt-4", [[("role", "user"), ("content", "hi")]], none, false⟩
      (fun _ => Except.ok "remote-resp") _ "cached-resp" rfl
      (by simp [cacheGet, dictGet]),
    C5_cache_short_circuit.2 ⟨none, none⟩
      ⟨"gpt-4", [[("role", "user"), ("content", "hi")]], none, false⟩
      (fun _ => Except.ok "remote-resp") (some []) "remote-resp" rfl rfl rfl⟩

/-- Claim C6: the fingerprint is deterministic: recomputing it on the same
request yields the same digest, and any two requests equal up to
key-insertion-order permutations of their dictionaries serialize to the
same sorted-key JSON and hence the same digest. -/
theorem C6_fingerprint_deterministic :
    (∀ (g : OpenAIGlobals) (r : Request),
      requestFingerprint g r = requestFingerprint g r) ∧
    (∀ (g : OpenAIGlobals) (r₁ r₂ : Request), ReqEquiv r₁ r₂ →
      requestFingerprint g r₁ = requestFingerprint g r₂) := by
  refine ⟨fun g r => rfl, fun g r₁ r₂ h => ?_⟩
  unfold requestFingerprint
  rw [requestKey_equiv g h]

/-- Witness for C6: two copies of the same logical request whose message
dictionary lists role and content in opposite insertion orders have equal
fingerprints. -/
theorem C6_fingerprint_deterministic_witness :
    requestFingerprint ⟨none, none⟩
        ⟨"gpt-4", [[("role", "user"), ("content", "hi")]], none, false⟩
      = requestFingerprint ⟨none, none⟩
        ⟨"gpt-4", [[("content", "hi"), ("role", "user")]], none, false⟩ :=
  C6_fingerprint_deterministic.2 ⟨none, none⟩
    ⟨"gpt-4", [[("role", "user"), ("content", "hi")]], none, false⟩
    ⟨"gpt-4", [[("content", "hi"), ("role", "user")]], none, false⟩
    ⟨rfl,
      List.Forall₂.cons (List.Perm.swap ("content", "hi") ("role", "user") [])
        List.Forall₂.nil,
      by simp [FunsEquiv], rfl⟩

/-- Claim C7 counterexample: on a concrete streaming request the body still
executes lines 66-67, so one fingerprint computation is recorded, where the
claim says the fingerprint computation is never invoked for
stream == true. -/
theorem C7_stream_counterexample :
    (OpenAIChatBot.send_with_retries ⟨none, none⟩
        ⟨"gpt-4", [[("role", "user"), ("content", "hi")]], none, true⟩
        (fun _ => Except.ok (0 : Nat)) none).fingerprints = 1 := rfl

/-- Claim C7 as amended: a streaming call leaves the cache unchanged (it is
neither consulted for a hit nor populated), but the fingerprint is still
computed - at least once, on every attempt of the body. -/
theorem C7_stream_amended {α : Type} :
    ∀ (g : OpenAIGlobals) (req : Request) (remote : Nat → Except PyError α)
      (cache : CacheState α),
      req.stream = true →
      (OpenAIChatBot.send_with_retries g req remote cache).cache = cache ∧
      1 ≤ (OpenAIChatBot.send_with_retries g req remote cache).fingerprints := by
  intro g req remote cache hs
  have h := sendLoop_stream g req remote hs 10 cache 0
  have h1 := h.2.2 (by norm_num)
  unfold OpenAIChatBot.send_with_retries
  exact ⟨h.1, by omega⟩

/-- Witness for the amended C7 at a concrete streaming request with an
enabled empty cache. -/
theorem C7_stream_amended_witness :
    (OpenAIChatBot.send_with_retries ⟨none, none⟩
        ⟨"gpt-4", [[("role", "user"), ("content", "hi")]], none, true⟩
        (fun _ => Except.ok (0 : Nat)) (some [])).cache = some [] ∧
    1 ≤ (OpenAIChatBot.send_with_retries ⟨none, none⟩
        ⟨"gpt-4", [[("role", "user"), ("content", "hi")]], none, true⟩
        (fun _ => Except.ok (0 : Nat)) (some [])).fingerprints :=
  C7_stream_amended ⟨none, none⟩
    ⟨"gpt-4", [[("role", "user"), ("content", "hi")]], none, true⟩
    (fun _ => Except.ok (0 : Nat)) (some []) rfl

/-- Claim C8 counterexample: calling the streaming send path with an empty
prompt and a claude model does raise before any remote call, but the
exception is the ValueError of line 135, not an InvalidRequestError as
claimed. -/
theorem C8_empty_prompt_counterexample :
    (AnthropicChatBot.async_stream "" (some "claude-2")).1
      ≠ Except.error PyError.invalidRequestError := by
  decide

/-- Claim C8 as amended: calling async_stream with an empty prompt and a
claude model raises ValueError with the message of line 135 before any
remote call; the remote-call count of the run is 0. -/
theorem C8_empty_prompt_amended :
    ∀ m : String, pyStartsWith m "claude" = true →
      AnthropicChatBot.async_stream "" (some m)
        = (Except.error (PyError.valueError "Prompt cannot be empty"), 0) := by
  intro m h
  simp [AnthropicChatBot.async_stream, h]

/-- Witness for the amended C8 at the concrete model claude-2. -/
theorem C8_empty_prompt_amended_witness :
    AnthropicChatBot.async_stream "" (some "claude-2")
      = (Except.error (PyError.valueError "Prompt cannot be empty"), 0) :=
  C8_empty_prompt_amended "claude-2" (by decide)

/-- Claim C9: the claim describes convert_to_openai as splitting each
segment on the first colon and failing with MalformedTranscriptError only
on a colon-free segment.  The code has no such error class and splits on
every colon: a well-formed one-colon segment raises AttributeError (the
undefined generate_prompt), a colon-free segment raises the unpacking
ValueError, and so does a segment with two colons, which the claim says
would split at its first colon.  The theorem evaluates the conversion at
those three failing inputs. -/
theorem C9_transcript_parse_bug :
    PromptConverter.convert_to_openai "Human:hi"
      = Except.error (PyError.attributeError "generate_prompt") ∧
    PromptConverter.convert_to_openai "hi"
      = Except.error (PyError.valueError "unpack role, content") ∧
    PromptConverter.convert_to_openai "Human: a:b"
      = Except.error (PyError.valueError "unpack role, content") :=
  ⟨rfl, rfl, rfl⟩

/-- Claim C10: whenever check_api_keys returns a truthy credential, both
top-level dispatchers construct the Anthropic bot and then fail with
AttributeError, because the AnthropicChatBot class defines neither
send_with_retries nor simple_send_with_retries: the streaming provider is
unreachable through the common call contract. -/
theorem C10_dispatch_attribute_error {α : Type} :
    ∀ (env : Env) (g : OpenAIGlobals) (req : Request)
      (remote : Nat → Except PyError α) (cache : CacheState α)
      (model : String) (messages : List (List (String × String)))
      (extract : α → Except PyError String) (k : String),
      check_api_keys env = Except.ok (some k) →
      (send_with_retries env g req remote cache).result
          = Except.error (PyError.attributeError "send_with_retries") ∧
      (simple_send_with_retries env g model messages remote cache extract).1
          = Except.error (PyError.attributeError "simple_send_with_retries") := by
  intro env g req remote cache model messages extract k h
  have hx : pyGetMethod AnthropicChatBot.methodNames "send_with_retries"
      = Except.error (PyError.attributeError "send_with_retries") := by decide
  have hy : pyGetMethod AnthropicChatBot.methodNames "simple_send_with_retries"
      = Except.error (PyError.attributeError "simple_send_with_retries") := by decide
  constructor
  · simp [send_with_retries, h, hx]
  · simp [simple_send_with_retries, h, hy]

/-- Witness for C10 at a concrete environment holding a non-empty
Anthropic credential. -/
theorem C10_dispatch_attribute_error_witness :
    ((send_with_retries (Env.mk none (some "sk-ant-test")) ⟨none, none⟩
        ⟨"gpt-4", [], none, false⟩ (fun _ => Except.ok (0 : Nat)) none).result
      = Except.error (PyError.attributeError "send_with_retries")) ∧
    ((simple_send_with_retries (Env.mk none (some "sk-ant-test")) ⟨none, none⟩
        "gpt-4" [] (fun _ => Except.ok (0 : Nat)) none (fun _ => Except.ok "x")).1
      = Except.error (PyError.attributeError "simple_send_with_retries")) :=
  C10_dispatch_attribute_error (Env.mk none (some "sk-ant-test")) ⟨none, none⟩
    ⟨"gpt-4", [], none, false⟩ (fun _ => Except.ok (0 : Nat)) none
    "gpt-4" [] (fun _ => Except.ok "x") "sk-ant-test" rfl
